import Mathlib

/-!
Verification of the Zakah-calculator core (src/script.js) against its
natural-language specification.

Shallow embedding conventions:
* JavaScript numbers are modelled as rationals (`ℚ`); the arithmetic the
  claims speak about (sums, products, quotients of user inputs and rates)
  is exact in the source's intent, and every claim instance checked here
  is exact in IEEE double as well.
* A JavaScript value that may be `undefined` (a missing object key) is
  modelled as an `Option`; `none` also stands for the NaN contamination
  that `undefined` causes once it enters arithmetic.
* `fetch`/`await` results are modelled as oracle parameters: `none` means
  the request (or `response.json()`) threw, `some r` is the parsed reply.
* Thrown-and-caught JavaScript exceptions are modelled by the explicit
  branch the `catch` block takes.
-/

namespace ZakahCalculator

/-- A Hijri calendar date, as assembled by `updateHijriDate` in
src/script.js (year/month/day integers). -/
structure HijriDate where
  year : Nat
  month : Nat
  day : Nat
deriving DecidableEq, Repr

/-- A Gregorian calendar date (the year/month/day view of the JavaScript
`Date` values the source manipulates). -/
structure GregorianDate where
  year : Nat
  month : Nat
  day : Nat
deriving DecidableEq, Repr

/-- `isHijriLeapYear` from src/script.js lines 444-449: a Hijri year is a
leap year iff `year % 30` is in the fixed 30-year-cycle list. -/
def isHijriLeapYear (year : Nat) : Bool :=
  [2, 5, 7, 10, 13, 16, 18, 21, 24, 26, 29].contains (year % 30)

/-- `getHijriYearDays` from src/script.js lines 429-432: 355 days in a
leap year, 354 otherwise. -/
def getHijriYearDays (year : Nat) : Nat :=
  if isHijriLeapYear year then 355 else 354

/-- `getHijriMonthDays` from src/script.js lines 434-442: odd months have
30 days, even months 29; the `year` parameter is accepted but unused,
exactly as in the source. -/
def getHijriMonthDays (year : Nat) (month : Nat) : Nat :=
  if [1, 3, 5, 7, 9, 11].contains month then 30 else 29

/-- `getDaysInHijriMonth` from src/script.js lines 217-222 (the UI copy of
the month-length rule; same body as `getHijriMonthDays`). -/
def getDaysInHijriMonth (year : Nat) (month : Nat) : Nat :=
  if [1, 3, 5, 7, 9, 11].contains month then 30 else 29

/-- The year loop of `calculateHijriDaysFromReference` (src/script.js
lines 414-416): `for (let year = reference.year; year < targetYear; year++)
totalDays += getHijriYearDays(year)`.  `count` is the number of loop
iterations, i.e. `targetYear - reference.year` truncated at zero, which is
exactly how many times the JavaScript loop body runs. -/
def sumYearDays (start : Nat) (count : Nat) : Nat :=
  match count with
  | 0 => 0
  | n + 1 => getHijriYearDays start + sumYearDays (start + 1) n

/-- The month loop of `calculateHijriDaysFromReference` (src/script.js
lines 419-421): `for (let month = 1; month < targetMonth; month++)
totalDays += getHijriMonthDays(targetYear, month)`. -/
def sumMonthDays (year : Nat) (start : Nat) (count : Nat) : Nat :=
  match count with
  | 0 => 0
  | n + 1 => getHijriMonthDays year start + sumMonthDays year (start + 1) n

/-- `calculateHijriDaysFromReference` from src/script.js lines 409-427,
with the reference fixed at Hijri (1446, 1, 1) as the only caller
(`hijriToGregorian`, line 394-398) always passes.  The JavaScript year
loop `for (year = 1446; year < targetYear; ...)` runs
`targetYear - 1446` times (zero times when `targetYear < 1446`), the
month loop `targetMonth - 1` times, and finally
`targetDay - reference.day = targetDay - 1` is added. -/
def calculateHijriDaysFromReference (targetYear targetMonth targetDay : Nat) : Nat :=
  sumYearDays 1446 (targetYear - 1446)
    + sumMonthDays targetYear 1 (targetMonth - 1)
    + (targetDay - 1)

/-- Day count of a Gregorian date since 0000-03-01 (proleptic Gregorian
civil-calendar arithmetic; this models the calendar arithmetic JavaScript
`Date.setDate` performs in src/script.js lines 401-402). -/
def daysFromCivil (g : GregorianDate) : Nat :=
  let y := if g.month ≤ 2 then g.year - 1 else g.year
  let era := y / 400
  let yoe := y % 400
  let mp := if 2 < g.month then g.month - 3 else g.month + 9
  let doy := (153 * mp + 2) / 5 + g.day - 1
  let doe := yoe * 365 + yoe / 4 - yoe / 100 + doy
  era * 146097 + doe

/-- Inverse of `daysFromCivil`: the Gregorian date lying `z` days after
0000-03-01 (standard civil-from-days algorithm). -/
def civilFromDays (z : Nat) : GregorianDate :=
  let era := z / 146097
  let doe := z % 146097
  let yoe := (doe - doe / 1460 + doe / 36524 - doe / 146096) / 365
  let y := yoe + era * 400
  let doy := doe - (365 * yoe + yoe / 4 - yoe / 100)
  let mp := (5 * doy + 2) / 153
  let d := doy - (153 * mp + 2) / 5 + 1
  let m := if mp < 10 then mp + 3 else mp - 9
  { year := if m ≤ 2 then y + 1 else y, month := m, day := d }

/-- The reference Gregorian date `new Date(2024, 6, 8)` (July 8, 2024)
from src/script.js line 395. -/
def referenceGregorian : GregorianDate := { year := 2024, month := 7, day := 8 }

/-- `hijriToGregorian` from src/script.js lines 383-407: the reference
Gregorian date July 8, 2024 advanced by
`calculateHijriDaysFromReference(year, month, day, {1446,1,1})` days. -/
def hijriToGregorian (h : HijriDate) : GregorianDate :=
  civilFromDays
    (daysFromCivil referenceGregorian
      + calculateHijriDaysFromReference h.year h.month h.day)

/-- `gregorianToHijri` from src/script.js lines 224-250: the approximate
seeding conversion, `hijriYear = 1446 + (gregorianYear - 2024)` with the
Gregorian month and day reused, clamped to [1,12] and [1,30].
(`1446 + year - 2024` in ℕ agrees with the JavaScript signed arithmetic
for every year ≥ 578; no claim concerns earlier years.) -/
def gregorianToHijri (year month day : Nat) : HijriDate :=
  { year := 1446 + year - 2024
    month := max 1 (min 12 month)
    day := max 1 (min 30 day) }

/-- A `conversion_rates` / `rates` object of an external API reply.  A
field is `none` when the reply lacks that currency key (JavaScript
`undefined`). -/
structure ConvRates where
  EGP : Option ℚ
  SAR : Option ℚ
deriving DecidableEq, Repr

/-- The reply of the historical-rates source as read by
`getHistoricalExchangeRates` (src/script.js lines 308-320): `ok` is
`response.ok`, `resultSuccess` models `data.result === 'success'`, and
`conversion_rates = none` models a falsy `data.conversion_rates`. -/
structure HistResponse where
  ok : Bool
  resultSuccess : Bool
  conversion_rates : Option ConvRates
deriving DecidableEq, Repr

/-- The reply of the latest-rates source as read by
`getCurrentExchangeRates` (src/script.js lines 357-368): `ok` is
`response.ok`; `rates = none` models a missing `data.rates` object (whose
field access throws and lands in the `catch` block). -/
structure CurResponse where
  ok : Bool
  rates : Option ConvRates
deriving DecidableEq, Repr

/-- The rate object both fetchers return: `{EGP, SAR, USD}`.  A field is
`none` when the source reply lacked the key, exactly as the JavaScript
object literal at src/script.js lines 325-329 propagates `undefined`. -/
structure RateSet where
  EGP : Option ℚ
  SAR : Option ℚ
  USD : Option ℚ
deriving DecidableEq, Repr

/-- The hardcoded last-resort rates of src/script.js lines 373-377:
`{EGP: 48.0, SAR: 3.75, USD: 1}`. -/
def fallbackRates : RateSet :=
  { EGP := some 48, SAR := some 3.75, USD := some 1 }

/-- `getCurrentExchangeRates` from src/script.js lines 355-379: on a
thrown fetch (`cur = none`), a non-ok response, or a missing `data.rates`
object (all of which land in the `catch`), return the hardcoded
`fallbackRates`; otherwise build the rate object from `data.rates`. -/
def getCurrentExchangeRates (cur : Option CurResponse) : RateSet :=
  match cur with
  | none => fallbackRates
  | some resp =>
    match resp.ok, resp.rates with
    | true, some r => { EGP := r.EGP, SAR := r.SAR, USD := some 1 }
    | _, _ => fallbackRates

/-- `getHistoricalExchangeRates` from src/script.js lines 297-336: on a
thrown fetch (`hist = none`) or a non-ok response (both caught), or when
`data.result !== 'success' || !data.conversion_rates`, delegate to
`getCurrentExchangeRates`; otherwise build the rate object from
`data.conversion_rates` with `USD := 1`.  Note no validation of the EGP
and SAR fields happens on the success path. -/
def getHistoricalExchangeRates (hist : Option HistResponse)
    (cur : Option CurResponse) : RateSet :=
  match hist with
  | none => getCurrentExchangeRates cur
  | some resp =>
    if resp.ok = false then getCurrentExchangeRates cur
    else
      match resp.resultSuccess, resp.conversion_rates with
      | true, some cr => { EGP := cr.EGP, SAR := cr.SAR, USD := some 1 }
      | _, _ => getCurrentExchangeRates cur

/-- The historical stage fails (and the chain moves on to the current
stage) iff the fetch threw, the response was not ok, `data.result` was
not `'success'`, or `data.conversion_rates` was falsy. -/
def histFails : Option HistResponse → Prop
  | none => True
  | some r => r.ok = false ∨ r.resultSuccess = false ∨ r.conversion_rates = none

/-- The current stage fails (and the hardcoded constant is used) iff the
fetch threw, the response was not ok, or `data.rates` was missing. -/
def curFails : Option CurResponse → Prop
  | none => True
  | some r => r.ok = false ∨ r.rates = none

instance : DecidablePred histFails := by
  intro h; cases h <;> simp only [histFails] <;> infer_instance

instance : DecidablePred curFails := by
  intro h; cases h <;> simp only [curFails] <;> infer_instance

/-- The `exchangeRateCache` Map of src/script.js line 18, keyed by the
ISO date string of a Gregorian date (a key in one-to-one correspondence
with the `GregorianDate` value used here). -/
abbrev Cache := List (GregorianDate × RateSet)

/-- `Map.get` on the rate cache. -/
def cacheGet : Cache → GregorianDate → Option RateSet
  | [], _ => none
  | (k, v) :: rest, d => if k = d then some v else cacheGet rest d

/-- `Map.set` on the rate cache (the new binding shadows any old one,
matching `Map.set`'s overwrite semantics under `cacheGet`). -/
def cacheSet (c : Cache) (k : GregorianDate) (v : RateSet) : Cache :=
  (k, v) :: c

/-- Result of one cache-or-fetch rate resolution: the rates, the cache
afterwards, and whether an external query was performed. -/
structure ResolveOut where
  rates : RateSet
  cache : Cache
  queried : Bool
deriving DecidableEq, Repr

/-- The cache-check-then-fetch-then-store step of `calculateZakah`
(src/script.js lines 653-659, likewise lines 508-522): use the cached
rate set for the date if present; otherwise call
`getHistoricalExchangeRates` (an external query) and store the result. -/
def resolveRates (cache : Cache) (gdate : GregorianDate)
    (hist : Option HistResponse) (cur : Option CurResponse) : ResolveOut :=
  match cacheGet cache gdate with
  | some r => { rates := r, cache := cache, queried := false }
  | none =>
    let r := getHistoricalExchangeRates hist cur
    { rates := r, cache := cacheSet cache gdate r, queried := true }

/-- The target currency, `this.country` when non-empty ('EGP' or 'SAR'). -/
inductive Country where
  | EGP
  | SAR
deriving DecidableEq, Repr

/-- The calculator's user-input state as read from the DOM by
`calculateZakah` and `checkIfCanCalculate`: `country` and `selectedDate`
are `none` when still the empty string, and each numeric field is the
`parseFloat(...) || 0` of its input box. -/
structure CalcState where
  country : Option Country
  selectedDate : Option HijriDate
  goldPrice : ℚ
  gold18k : ℚ
  gold21k : ℚ
  gold24k : ℚ
  cashEGP : ℚ
  cashSAR : ℚ
  cashUSD : ℚ
deriving DecidableEq, Repr

/-- The 24k-equivalent gold mass of src/script.js line 634:
`(gold18k * (18/24)) + (gold21k * (21/24)) + gold24k`. -/
def convertGoldTo24k (g18 g21 g24 : ℚ) : ℚ :=
  g18 * (18 / 24) + g21 * (21 / 24) + g24

/-- The cash-conversion expressions of src/script.js lines 661-665.  The
result is `none` when a needed rate key is `undefined` or a divisor is
zero (in JavaScript the expression would then evaluate to NaN or a
non-finite value, which `none` stands for). -/
def convertCashToTarget (c : Country) (cashEGP cashSAR cashUSD : ℚ)
    (r : RateSet) : Option ℚ :=
  match c, r.EGP, r.SAR with
  | Country.EGP, some rE, some rS =>
    if rS = 0 then none
    else some (cashEGP + cashSAR * (rE / rS) + cashUSD * rE)
  | Country.SAR, some rE, some rS =>
    if rE = 0 then none
    else some (cashEGP * (rS / rE) + cashSAR + cashUSD * rS)
  | _, _, _ => none

/-- The figures `calculateZakah` computes and hands to `displayResults`
(src/script.js lines 629-689).  The cash-derived fields are `Option`s:
`none` models the NaN that an undefined rate key would propagate into
them. -/
structure ZakahResult where
  totalGold24k : ℚ
  goldValue : ℚ
  totalCash : Option ℚ
  totalWealth : Option ℚ
  zakahDue : Option ℚ
deriving DecidableEq, Repr

/-- Result of a `calculateZakah` run: the displayed figures plus the
cache and external-query effects of its rate resolution. -/
structure ZakahOut where
  result : ZakahResult
  cache : Cache
  queried : Bool
deriving DecidableEq, Repr

/-- `calculateZakah` from src/script.js lines 626-695, for a state whose
country and date are set (`c` and `d` are `this.country` and
`this.selectedDate`): convert gold to 24k equivalent, price it, resolve
rates for `hijriToGregorian(selectedDate)` through the cache, convert
the cash, and take 2.5% of the total.  The `catch` fallback of lines
667-680 is unreachable because `getHistoricalExchangeRates` never
throws, and is therefore not modelled. -/
def calculateZakah (s : CalcState) (c : Country) (d : HijriDate)
    (cache : Cache) (hist : Option HistResponse) (cur : Option CurResponse) :
    ZakahOut :=
  let totalGold24k := convertGoldTo24k s.gold18k s.gold21k s.gold24k
  let goldValue := totalGold24k * s.goldPrice
  let gdate := hijriToGregorian d
  let out := resolveRates cache gdate hist cur
  let totalCash := convertCashToTarget c s.cashEGP s.cashSAR s.cashUSD out.rates
  let totalWealth := totalCash.map (fun tc => goldValue + tc)
  let zakahDue := totalWealth.map (fun tw => tw * 0.025)
  { result :=
      { totalGold24k := totalGold24k, goldValue := goldValue
        totalCash := totalCash, totalWealth := totalWealth
        zakahDue := zakahDue }
    cache := out.cache
    queried := out.queried }

/-- `hasGoldInputs` from src/script.js lines 612-617. -/
def hasGoldInputs (s : CalcState) : Bool :=
  decide (0 < s.gold18k) || decide (0 < s.gold21k) || decide (0 < s.gold24k)

/-- `hasCurrencyInputs` from src/script.js lines 619-624. -/
def hasCurrencyInputs (s : CalcState) : Bool :=
  decide (0 < s.cashEGP) || decide (0 < s.cashSAR) || decide (0 < s.cashUSD)

/-- The gate of `checkIfCanCalculate` (src/script.js lines 584-597):
country chosen, date chosen, gold price positive, and some gold or cash
entered. -/
def checkIfCanCalculate (s : CalcState) : Bool :=
  s.country.isSome && s.selectedDate.isSome && decide (0 < s.goldPrice)
    && (hasGoldInputs s || hasCurrencyInputs s)

/-- The validation messages `checkIfCanCalculate` puts on the button
(src/script.js lines 600-609), abstracted from their Arabic strings. -/
inductive GateMessage where
  | chooseCountryAndDateFirst
  | enterGoldPriceFirst
  | enterGoldOrCash
  | readyToCalculate
deriving DecidableEq, Repr

/-- The message cascade of src/script.js lines 601-609. -/
def gateMessage (s : CalcState) : GateMessage :=
  if !(s.country.isSome && s.selectedDate.isSome) then
    GateMessage.chooseCountryAndDateFirst
  else if !(decide (0 < s.goldPrice)) then GateMessage.enterGoldPriceFirst
  else if !(hasGoldInputs s || hasCurrencyInputs s) then
    GateMessage.enterGoldOrCash
  else GateMessage.readyToCalculate

/-- Outcome of one attempted calculation: the result if one was computed,
plus the cache and external-query effects. -/
structure AttemptOut where
  result : Option ZakahResult
  cache : Cache
  queried : Bool
deriving DecidableEq, Repr

/-- The caller-side flow around `calculateZakah`: the calculate button's
click handler (src/script.js lines 92-94) can only run `calculateZakah`
when `checkIfCanCalculate` has enabled the button (line 597); otherwise
nothing runs — no rate lookup, no result. -/
def attemptCalculate (s : CalcState) (cache : Cache)
    (hist : Option HistResponse) (cur : Option CurResponse) : AttemptOut :=
  if checkIfCanCalculate s then
    match s.country, s.selectedDate with
    | some c, some d =>
      let out := calculateZakah s c d cache hist cur
      { result := some out.result, cache := out.cache, queried := out.queried }
    | _, _ => { result := none, cache := cache, queried := false }
  else { result := none, cache := cache, queried := false }

/-- The RateSet invariant stated by the spec (§3): all three currency
keys present with positive values. -/
def RateSetValid (r : RateSet) : Prop :=
  (∃ x, r.EGP = some x ∧ 0 < x) ∧ (∃ x, r.SAR = some x ∧ 0 < x)
    ∧ (∃ x, r.USD = some x ∧ 0 < x)

/-! Helper lemmas relating the loop embeddings to `Finset` sums. -/

/-- The year loop computes the sum of `getHijriYearDays` over its
iteration range. -/
theorem sumYearDays_eq_range (n : Nat) :
    ∀ a, sumYearDays a n = ∑ i ∈ Finset.range n, getHijriYearDays (a + i) := by
  induction n with
  | zero => intro a; simp [sumYearDays]
  | succ n ih =>
    intro a
    rw [Finset.sum_range_succ']
    simp only [sumYearDays, ih (a + 1), Nat.add_zero]
    rw [Nat.add_comm]
    congr 1
    apply Finset.sum_congr rfl
    intro i _
    congr 1
    omega

/-- The month loop computes the sum of `getHijriMonthDays` over its
iteration range. -/
theorem sumMonthDays_eq_range (y : Nat) (n : Nat) :
    ∀ a, sumMonthDays y a n = ∑ i ∈ Finset.range n, getHijriMonthDays y (a + i) := by
  induction n with
  | zero => intro a; simp [sumMonthDays]
  | succ n ih =>
    intro a
    rw [Finset.sum_range_succ']
    simp only [sumMonthDays, ih (a + 1), Nat.add_zero]
    rw [Nat.add_comm]
    congr 1
    apply Finset.sum_congr rfl
    intro i _
    congr 1
    omega

/-- `getHijriMonthDays` ignores its year argument (its body never reads
it), so the month loop does too. -/
theorem sumMonthDays_year_irrel (y y' : Nat) (n : Nat) :
    ∀ a, sumMonthDays y a n = sumMonthDays y' a n := by
  induction n with
  | zero => intro a; rfl
  | succ n ih => intro a; simp only [sumMonthDays, ih (a + 1)]; rfl

/-- The day offset computed by `calculateHijriDaysFromReference` equals
the closed-form interval sums (unconditionally: the JavaScript loops run
`max 0 (bound - start)` times, which is what `Finset.Ico` gives). -/
theorem calculateHijriDaysFromReference_eq_sums (y m d : Nat) :
    calculateHijriDaysFromReference y m d =
      (∑ i ∈ Finset.Ico 1446 y, getHijriYearDays i)
        + (∑ i ∈ Finset.Ico 1 m, getHijriMonthDays y i) + (d - 1) := by
  unfold calculateHijriDaysFromReference
  rw [Finset.sum_Ico_eq_sum_range, Finset.sum_Ico_eq_sum_range,
    sumYearDays_eq_range, sumMonthDays_eq_range]

/-! Claim theorems. -/

/-- C7: `hijriToGregorian` applied to the fixed reference date
(1446, 1, 1) yields exactly the Gregorian date 2024-07-08. -/
theorem hijriToGregorian_reference :
    hijriToGregorian { year := 1446, month := 1, day := 1 } =
      { year := 2024, month := 7, day := 8 } := by
  decide

/-- C1: for every valid `HijriDate` at or after the reference year,
`hijriToGregorian` returns the reference Gregorian date 2024-07-08
advanced by the day offset
(sum of `hijriYearLength` over the full years from 1446 up to the target
year) + (sum of `hijriMonthLength` over the full months before the
target month) + (target day − 1). -/
theorem hijriToGregorian_day_offset (y m d : Nat)
    (hy : 1446 ≤ y) (hm1 : 1 ≤ m) (hm2 : m ≤ 12)
    (hd1 : 1 ≤ d) (hd2 : d ≤ getHijriMonthDays y m) :
    hijriToGregorian { year := y, month := m, day := d } =
      civilFromDays (daysFromCivil referenceGregorian
        + ((∑ i ∈ Finset.Ico 1446 y, getHijriYearDays i)
          + (∑ i ∈ Finset.Ico 1 m, getHijriMonthDays y i) + (d - 1))) := by
  unfold hijriToGregorian
  rw [calculateHijriDaysFromReference_eq_sums]

/-- Witness for C1 at the concrete date (1447, 2, 5). -/
theorem hijriToGregorian_day_offset_witness :
    hijriToGregorian { year := 1447, month := 2, day := 5 } =
      civilFromDays (daysFromCivil referenceGregorian
        + ((∑ i ∈ Finset.Ico 1446 1447, getHijriYearDays i)
          + (∑ i ∈ Finset.Ico 1 2, getHijriMonthDays 1447 i) + (5 - 1))) :=
  hijriToGregorian_day_offset 1447 2 5 (by decide) (by decide) (by decide)
    (by decide) (by decide)

/-- C8: every Hijri year has 354 or 355 days, 355 exactly when
`year % 30` is in the fixed leap list; and a month (1–12) has 30 days
exactly when it is odd, regardless of the year. -/
theorem hijri_lengths (y m : Nat) (hm1 : 1 ≤ m) (hm2 : m ≤ 12) :
    (getHijriYearDays y = 354 ∨ getHijriYearDays y = 355)
      ∧ (getHijriYearDays y = 355 ↔
          y % 30 ∈ [2, 5, 7, 10, 13, 16, 18, 21, 24, 26, 29])
      ∧ (getHijriMonthDays y m = 30 ↔ m % 2 = 1) := by
  refine ⟨?_, ?_, ?_⟩
  · unfold getHijriYearDays
    split
    · right; rfl
    · left; rfl
  · have h30 : y % 30 < 30 := Nat.mod_lt _ (by norm_num)
    unfold getHijriYearDays isHijriLeapYear
    generalize y % 30 = r at h30 ⊢
    interval_cases r <;> decide
  · have hy0 : getHijriMonthDays y m = getHijriMonthDays 0 m := rfl
    rw [hy0]
    interval_cases m <;> decide

/-- Witness for C8 at year 1447 (1447 % 30 = 7, a leap year) and
month 3. -/
theorem hijri_lengths_witness :
    (getHijriYearDays 1447 = 354 ∨ getHijriYearDays 1447 = 355)
      ∧ (getHijriYearDays 1447 = 355 ↔
          1447 % 30 ∈ [2, 5, 7, 10, 13, 16, 18, 21, 24, 26, 29])
      ∧ (getHijriMonthDays 1447 3 = 30 ↔ 3 % 2 = 1) :=
  hijri_lengths 1447 3 (by decide) (by decide)

/-- C9: the approximate `gregorianToHijri` breaks the HijriDate
day-length invariant — April 30, 2025 maps to Hijri (1447, 4, 30) whose
even month only has 29 days — while it does guarantee the month is
clamped to [1,12] and the day to [1,30]. -/
theorem gregorianToHijri_invariant_break :
    (getHijriMonthDays (gregorianToHijri 2025 4 30).year
        (gregorianToHijri 2025 4 30).month < (gregorianToHijri 2025 4 30).day)
      ∧ ∀ y m d,
          1 ≤ (gregorianToHijri y m d).month
            ∧ (gregorianToHijri y m d).month ≤ 12
            ∧ 1 ≤ (gregorianToHijri y m d).day
            ∧ (gregorianToHijri y m d).day ≤ 30 := by
  constructor
  · decide
  · intro y m d
    dsimp only [gregorianToHijri]
    omega

/-- C5 counterexample: for the Hijri date (1445, 1, 1), whose year is
strictly below the reference year 1446, `hijriToGregorian` raises no
error at all — it silently returns 2024-07-08, the reference date
itself. -/
theorem hijriToGregorian_below_reference_counterexample :
    hijriToGregorian { year := 1445, month := 1, day := 1 } =
      { year := 2024, month := 7, day := 8 } := by
  decide

/-- C5 amended: for every Hijri date whose year is strictly below the
reference year 1446, `hijriToGregorian` does not fail; the year loop
contributes zero days, so the date is silently converted exactly as the
same month and day of the reference year 1446. -/
theorem hijriToGregorian_below_reference (y m d : Nat) (h : y < 1446) :
    hijriToGregorian { year := y, month := m, day := d } =
      hijriToGregorian { year := 1446, month := m, day := d } := by
  unfold hijriToGregorian calculateHijriDaysFromReference
  have h1 : y - 1446 = 0 := by omega
  rw [h1, Nat.sub_self, sumMonthDays_year_irrel y 1446]

/-- Witness for C5's amended claim at (1445, 2, 10). -/
theorem hijriToGregorian_below_reference_witness :
    hijriToGregorian { year := 1445, month := 2, day := 10 } =
      hijriToGregorian { year := 1446, month := 2, day := 10 } :=
  hijriToGregorian_below_reference 1445 2 10 (by decide)

/-- C2: the rate-lookup fallback chain is strictly ordered
historical → current → hardcoded constant: a failed historical stage
delegates to the current stage; a failed current stage yields the
hardcoded constant; both failing yields exactly
`{EGP: 48.0, SAR: 3.75, USD: 1}`; and a successful historical stage
determines the result regardless of the current source (which is then
never consulted).  The function is total: no failure reaches the
caller. -/
theorem rate_fallback_chain (hist : Option HistResponse)
    (cur : Option CurResponse) :
    (histFails hist →
      getHistoricalExchangeRates hist cur = getCurrentExchangeRates cur)
      ∧ (curFails cur → getCurrentExchangeRates cur = fallbackRates)
      ∧ (histFails hist → curFails cur →
          getHistoricalExchangeRates hist cur = fallbackRates)
      ∧ (∀ resp cr, hist = some resp → resp.ok = true →
          resp.resultSuccess = true → resp.conversion_rates = some cr →
          getHistoricalExchangeRates hist cur =
            { EGP := cr.EGP, SAR := cr.SAR, USD := some 1 }) := by
  have h1 : histFails hist →
      getHistoricalExchangeRates hist cur = getCurrentExchangeRates cur := by
    intro hf
    cases hist with
    | none => rfl
    | some resp =>
      rcases resp with ⟨ok, rs, cr⟩
      cases ok <;> cases rs <;> cases cr <;>
        simp_all [getHistoricalExchangeRates, histFails]
  have h2 : curFails cur → getCurrentExchangeRates cur = fallbackRates := by
    intro cf
    cases cur with
    | none => rfl
    | some resp =>
      rcases resp with ⟨ok, rs⟩
      cases ok <;> cases rs <;> simp_all [getCurrentExchangeRates, curFails]
  refine ⟨h1, h2, fun hf cf => by rw [h1 hf, h2 cf], ?_⟩
  intro resp cr he hok hrs hcr
  subst he
  simp [getHistoricalExchangeRates, hok, hrs, hcr]

/-- Witness for C2: with both sources down (both fetches throw), the
resolved rates are exactly the hardcoded constant. -/
theorem rate_fallback_chain_witness :
    getHistoricalExchangeRates none none = fallbackRates :=
  (rate_fallback_chain none none).2.2.1 trivial trivial

/-- C4: resolving rates for a date not yet cached stores the resolved
`RateSet` in the cache and performs the external query; a second
resolution of the same date then hits the cache and returns the
identical `RateSet`, with no second external query and no cache
change — whatever the external sources would answer the second time. -/
theorem rate_cache_idempotent (cache : Cache) (d : GregorianDate)
    (hist : Option HistResponse) (cur : Option CurResponse)
    (hist' : Option HistResponse) (cur' : Option CurResponse)
    (h : cacheGet cache d = none) :
    cacheGet (resolveRates cache d hist cur).cache d =
        some (resolveRates cache d hist cur).rates
      ∧ (resolveRates cache d hist cur).queried = true
      ∧ resolveRates (resolveRates cache d hist cur).cache d hist' cur' =
          { rates := (resolveRates cache d hist cur).rates
            cache := (resolveRates cache d hist cur).cache
            queried := false } := by
  simp only [resolveRates, h]
  refine ⟨?_, trivial, ?_⟩
  · simp [cacheSet, cacheGet]
  · simp [cacheSet, cacheGet, resolveRates]

/-- Witness for C4: first resolution of 2024-07-08 on an empty cache
fetches and stores; the second returns the identical rates from the
cache without querying. -/
theorem rate_cache_idempotent_witness :
    cacheGet (resolveRates [] { year := 2024, month := 7, day := 8 } none none).cache
        { year := 2024, month := 7, day := 8 } =
        some (resolveRates [] { year := 2024, month := 7, day := 8 } none none).rates
      ∧ (resolveRates [] { year := 2024, month := 7, day := 8 } none none).queried = true
      ∧ resolveRates
          (resolveRates [] { year := 2024, month := 7, day := 8 } none none).cache
          { year := 2024, month := 7, day := 8 } none none =
          { rates := (resolveRates [] { year := 2024, month := 7, day := 8 } none none).rates
            cache := (resolveRates [] { year := 2024, month := 7, day := 8 } none none).cache
            queried := false } :=
  rate_cache_idempotent [] { year := 2024, month := 7, day := 8 }
    none none none none rfl

/-- C10: `getHistoricalExchangeRates` does not validate the RateSet
invariant on success: a reply flagged success whose conversion-rate
mapping lacks the EGP key is returned with an absent EGP entry,
violating the invariant; the unguarded cash-conversion division then
evaluates to NaN (modelled `none`), which flows through `calculateZakah`
all the way into `zakahDue`. -/
theorem historical_rates_unvalidated :
    getHistoricalExchangeRates
        (some { ok := true, resultSuccess := true
                conversion_rates := some { EGP := none, SAR := some 3 } }) none =
        { EGP := none, SAR := some 3, USD := some 1 }
      ∧ ¬ RateSetValid { EGP := none, SAR := some 3, USD := some 1 }
      ∧ convertCashToTarget Country.EGP 1000 100 0
          { EGP := none, SAR := some 3, USD := some 1 } = none
      ∧ (calculateZakah
          { country := some Country.EGP
            selectedDate := some { year := 1446, month := 1, day := 1 }
            goldPrice := 100, gold18k := 0, gold21k := 0, gold24k := 0
            cashEGP := 1000, cashSAR := 100, cashUSD := 0 }
          Country.EGP { year := 1446, month := 1, day := 1 } []
          (some { ok := true, resultSuccess := true
                  conversion_rates := some { EGP := none, SAR := some 3 } })
          none).result.zakahDue = none := by
  refine ⟨rfl, ?_, rfl, ?_⟩
  · rintro ⟨⟨x, hx, _⟩, -, -⟩
    exact Option.noConfusion hx
  · decide

/-- C6: calculation is permitted exactly when a target currency is
chosen, a Hijri date is set, the gold price is positive, and some gold
or cash amount is positive; with a zero gold price the gate is closed,
the gold-price validation message is shown, and no calculation — in
particular no rate lookup and no cache write — happens. -/
theorem calculation_gate (s : CalcState) (cache : Cache)
    (hist : Option HistResponse) (cur : Option CurResponse) :
    (checkIfCanCalculate s = true ↔
      (s.country.isSome = true ∧ s.selectedDate.isSome = true
        ∧ 0 < s.goldPrice
        ∧ (0 < s.gold18k ∨ 0 < s.gold21k ∨ 0 < s.gold24k
            ∨ 0 < s.cashEGP ∨ 0 < s.cashSAR ∨ 0 < s.cashUSD)))
      ∧ (s.goldPrice = 0 →
          checkIfCanCalculate s = false
            ∧ attemptCalculate s cache hist cur =
                { result := none, cache := cache, queried := false })
      ∧ (s.country.isSome = true → s.selectedDate.isSome = true →
          s.goldPrice = 0 → gateMessage s = GateMessage.enterGoldPriceFirst) := by
  have hiff : checkIfCanCalculate s = true ↔
      (s.country.isSome = true ∧ s.selectedDate.isSome = true
        ∧ 0 < s.goldPrice
        ∧ (0 < s.gold18k ∨ 0 < s.gold21k ∨ 0 < s.gold24k
            ∨ 0 < s.cashEGP ∨ 0 < s.cashSAR ∨ 0 < s.cashUSD)) := by
    simp [checkIfCanCalculate, hasGoldInputs, hasCurrencyInputs,
      Bool.and_eq_true, Bool.or_eq_true, and_assoc, or_assoc]
  refine ⟨hiff, ?_, ?_⟩
  · intro h0
    have hfalse : checkIfCanCalculate s = false := by
      cases hcc : checkIfCanCalculate s with
      | false => rfl
      | true =>
        rcases hiff.mp hcc with ⟨-, -, hpos, -⟩
        rw [h0] at hpos
        exact absurd hpos (lt_irrefl 0)
    refine ⟨hfalse, ?_⟩
    unfold attemptCalculate
    rw [hfalse]
    rfl
  · intro hc hd h0
    unfold gateMessage
    rw [hc, hd, h0]
    norm_num

/-- Witness for C6: a state with country and date chosen, gold entered,
but a zero gold price is rejected before any rate lookup. -/
theorem calculation_gate_witness :
    checkIfCanCalculate
        { country := some Country.EGP
          selectedDate := some { year := 1446, month := 1, day := 1 }
          goldPrice := 0, gold18k := 10, gold21k := 0, gold24k := 0
          cashEGP := 0, cashSAR := 0, cashUSD := 0 } = false
      ∧ attemptCalculate
          { country := some Country.EGP
            selectedDate := some { year := 1446, month := 1, day := 1 }
            goldPrice := 0, gold18k := 10, gold21k := 0, gold24k := 0
            cashEGP := 0, cashSAR := 0, cashUSD := 0 } [] none none =
          { result := none, cache := [], queried := false }
      ∧ gateMessage
          { country := some Country.EGP
            selectedDate := some { year := 1446, month := 1, day := 1 }
            goldPrice := 0, gold18k := 10, gold21k := 0, gold24k := 0
            cashEGP := 0, cashSAR := 0, cashUSD := 0 } =
          GateMessage.enterGoldPriceFirst := by
  have h := calculation_gate
    { country := some Country.EGP
      selectedDate := some { year := 1446, month := 1, day := 1 }
      goldPrice := 0, gold18k := 10, gold21k := 0, gold24k := 0
      cashEGP := 0, cashSAR := 0, cashUSD := 0 } [] none none
  exact ⟨(h.2.1 rfl).1, (h.2.1 rfl).2, h.2.2 rfl rfl rfl⟩

/-- C3: with the valuation date's rates resolved to a `RateSet` with
positive EGP and SAR entries, `calculateZakah` computes the cash
conversion `EGP + SAR·(rates.EGP/rates.SAR) + USD·rates.EGP` for target
EGP (symmetrically for target SAR), the total wealth
`goldValue + cash`, and `zakahDue = totalWealth × 0.025` exactly. -/
theorem calculateZakah_spec (s : CalcState) (c : Country) (d : HijriDate)
    (cache : Cache) (hist : Option HistResponse) (cur : Option CurResponse)
    (rE rS rU : ℚ)
    (hc : cacheGet cache (hijriToGregorian d) =
      some { EGP := some rE, SAR := some rS, USD := some rU })
    (hE : 0 < rE) (hS : 0 < rS) :
    (calculateZakah s c d cache hist cur).result =
      { totalGold24k :=
          s.gold18k * (18 / 24) + s.gold21k * (21 / 24) + s.gold24k
        goldValue :=
          (s.gold18k * (18 / 24) + s.gold21k * (21 / 24) + s.gold24k)
            * s.goldPrice
        totalCash := some (match c with
          | Country.EGP => s.cashEGP + s.cashSAR * (rE / rS) + s.cashUSD * rE
          | Country.SAR => s.cashEGP * (rS / rE) + s.cashSAR + s.cashUSD * rS)
        totalWealth := some
          ((s.gold18k * (18 / 24) + s.gold21k * (21 / 24) + s.gold24k)
              * s.goldPrice
            + (match c with
              | Country.EGP =>
                s.cashEGP + s.cashSAR * (rE / rS) + s.cashUSD * rE
              | Country.SAR =>
                s.cashEGP * (rS / rE) + s.cashSAR + s.cashUSD * rS))
        zakahDue := some
          (((s.gold18k * (18 / 24) + s.gold21k * (21 / 24) + s.gold24k)
              * s.goldPrice
            + (match c with
              | Country.EGP =>
                s.cashEGP + s.cashSAR * (rE / rS) + s.cashUSD * rE
              | Country.SAR =>
                s.cashEGP * (rS / rE) + s.cashSAR + s.cashUSD * rS))
            * 0.025) } := by
  have hE0 : rE ≠ 0 := ne_of_gt hE
  have hS0 : rS ≠ 0 := ne_of_gt hS
  unfold calculateZakah resolveRates
  simp only [hc]
  cases c <;>
    simp [convertCashToTarget, convertGoldTo24k, hE0, hS0]

/-- Witness for C3, the spec's end-to-end scenario: target EGP, rates
{EGP: 48, SAR: 3.75, USD: 1}, cash {EGP: 1000, SAR: 100, USD: 0}, no
gold — converted cash 2280 and zakah due 57. -/
theorem calculateZakah_spec_witness :
    (calculateZakah
        { country := some Country.EGP
          selectedDate := some { year := 1446, month := 1, day := 1 }
          goldPrice := 100, gold18k := 0, gold21k := 0, gold24k := 0
          cashEGP := 1000, cashSAR := 100, cashUSD := 0 }
        Country.EGP { year := 1446, month := 1, day := 1 }
        [({ year := 2024, month := 7, day := 8 },
          { EGP := some 48, SAR := some 3.75, USD := some 1 })]
        none none).result.totalCash = some 2280
      ∧ (calculateZakah
          { country := some Country.EGP
            selectedDate := some { year := 1446, month := 1, day := 1 }
            goldPrice := 100, gold18k := 0, gold21k := 0, gold24k := 0
            cashEGP := 1000, cashSAR := 100, cashUSD := 0 }
          Country.EGP { year := 1446, month := 1, day := 1 }
          [({ year := 2024, month := 7, day := 8 },
            { EGP := some 48, SAR := some 3.75, USD := some 1 })]
          none none).result.zakahDue = some 57 := by
  have h := calculateZakah_spec
    { country := some Country.EGP
      selectedDate := some { year := 1446, month := 1, day := 1 }
      goldPrice := 100, gold18k := 0, gold21k := 0, gold24k := 0
      cashEGP := 1000, cashSAR := 100, cashUSD := 0 }
    Country.EGP { year := 1446, month := 1, day := 1 }
    [({ year := 2024, month := 7, day := 8 },
      { EGP := some 48, SAR := some 3.75, USD := some 1 })]
    none none 48 3.75 1 rfl (by norm_num) (by norm_num)
  rw [h]
  constructor <;> norm_num

end ZakahCalculator
